import Mathlib

/-!
Shallow embedding of `src/fix.js` (High-Performance IMAP OTP Handler).

The file embeds, faithfully to the JavaScript source, the components the
specification talks about: the `CONFIG` constants, the `OtpCache`, the
`RequestQueue`, the `ImapConnectionPool`, the retry wrapper
`_fetchOTPWithRetry`, the per-attempt worker `_fetchOTPInternal`, the
entry point `fetchOTP`, and the artifact extractor `_extractOTP`.
JavaScript `Map`s become association lists in insertion order, promises
with explicit success/failure become `Except`, wall-clock reads
(`Date.now()`) become explicit `now` parameters, and `Math.random()`
jitter becomes an explicit jitter function.
-/

namespace Fix

namespace CONFIG

/-- CONFIG.poolSize: number of connections to keep alive. -/
def poolSize : Nat := 5

/-- CONFIG.maxRequestsPerConn: max requests before connection refresh. -/
def maxRequestsPerConn : Nat := 50

/-- CONFIG.connectionTimeout: 10 seconds connection timeout. -/
def connectionTimeout : Nat := 10000

/-- CONFIG.maxRecentEmails: only check the 15 most recent emails. -/
def maxRecentEmails : Nat := 15

/-- CONFIG.maxRetries: max retry attempts. -/
def maxRetries : Nat := 3

/-- CONFIG.initialRetryDelay: initial retry delay (1s). -/
def initialRetryDelay : Nat := 1000

/-- CONFIG.maxRetryDelay: max retry delay (5s). -/
def maxRetryDelay : Nat := 5000

/-- CONFIG.cacheEnabled. -/
def cacheEnabled : Bool := true

/-- CONFIG.cacheTTL: cache TTL, 5 minutes (300000 ms). -/
def cacheTTL : Nat := 300000

/-- CONFIG.maxCacheSize: max cached entries. -/
def maxCacheSize : Nat := 1000

/-- CONFIG.maxConcurrent: max concurrent IMAP requests. -/
def maxConcurrent : Nat := 10

/-- CONFIG.queueTimeout: queue request timeout (30s). -/
def queueTimeout : Nat := 30000

end CONFIG

/-! ## OtpCache (fix.js lines 213-264)

The JavaScript `Map` is embedded as an association list in insertion
order; `Date.now()` is an explicit `now : Nat` argument. -/

/-- One value stored in `OtpCache.cache`: the `{ data, timestamp }` object
built by `OtpCache.set`. -/
structure CacheEntry (α : Type) where
  data : α
  timestamp : Nat
deriving DecidableEq, Repr

/-- Map.get on an insertion-ordered association list. -/
def lookupKey {α : Type} (k : String) : List (String × CacheEntry α) → Option (CacheEntry α)
  | [] => none
  | (k1, e) :: rest => if k1 = k then some e else lookupKey k rest

/-- Map.delete on an insertion-ordered association list: removes the (unique)
binding of `k`, if present. -/
def deleteKey {α : Type} (k : String) : List (String × CacheEntry α) → List (String × CacheEntry α)
  | [] => []
  | (k1, e) :: rest => if k1 = k then rest else (k1, e) :: deleteKey k rest

/-- Map.set on an insertion-ordered association list: replaces in place when
the key is present, appends otherwise. -/
def mapSet {α : Type} (k : String) (e : CacheEntry α) :
    List (String × CacheEntry α) → List (String × CacheEntry α)
  | [] => [(k, e)]
  | (k1, e1) :: rest => if k1 = k then (k, e) :: rest else (k1, e1) :: mapSet k e rest

/-- The cache key built by OtpCache.get and OtpCache.set. -/
def cacheKey (email service : String) : String := email ++ ":" ++ service

/-- OtpCache state: the backing map and the `enabled` flag. -/
structure OtpCache (α : Type) where
  cache : List (String × CacheEntry α)
  enabled : Bool
deriving DecidableEq, Repr

/-- OtpCache.get (fix.js 219-235): returns null when disabled or absent;
deletes the entry and returns null when `now - entry.timestamp > cacheTTL`;
returns the data otherwise. The pair also carries the cache after the call. -/
def OtpCache.get {α : Type} (c : OtpCache α) (now : Nat) (email service : String) :
    Option α × OtpCache α :=
  if c.enabled = false then (none, c)
  else
    match lookupKey (cacheKey email service) c.cache with
    | none => (none, c)
    | some entry =>
      if now - entry.timestamp > CONFIG.cacheTTL then
        (none, { c with cache := deleteKey (cacheKey email service) c.cache })
      else
        (some entry.data, c)

/-- OtpCache.set (fix.js 237-254): no-op when disabled; when the map is at
capacity the first-inserted key is deleted; then the key is set to
`{ data, timestamp := now }`. -/
def OtpCache.set {α : Type} (c : OtpCache α) (now : Nat) (email service : String) (data : α) :
    OtpCache α :=
  if c.enabled = false then c
  else
    let base := if c.cache.length ≥ CONFIG.maxCacheSize then c.cache.tail else c.cache
    { c with cache := mapSet (cacheKey email service) ⟨data, now⟩ base }

/-- OtpCache.clear (fix.js 256-259). -/
def OtpCache.clear {α : Type} (c : OtpCache α) : OtpCache α := { c with cache := [] }

/-- OtpCache.size (fix.js 261-263). -/
def OtpCache.size {α : Type} (c : OtpCache α) : Nat := c.cache.length

/-! ## RequestQueue (fix.js 270-298)

Tasks are identified by a `Nat`; the queue state is the waiting list (in
enqueue order) plus the count of currently-running tasks. `_process` is the
while loop that dispatches waiting tasks while `processing < maxConcurrent`;
a dispatched task leaves the waiting list and increments `processing`, and
its `.finally` handler later decrements `processing` and calls `_process`
again (embedded as `finishTask`). The queue stores for each task only
`{ fn, resolve, reject }` — no timestamp and no deadline. -/

structure RequestQueue where
  queue : List Nat
  processing : Nat
  maxConcurrent : Nat
deriving DecidableEq, Repr

/-- The constructor of RequestQueue. -/
def RequestQueue.new : RequestQueue := ⟨[], 0, CONFIG.maxConcurrent⟩

/-- The while loop of `_process`, on the queue's components: returns the
final (queue, processing) and the dispatched task ids, in dispatch order. -/
def processGo (m : Nat) : List Nat → Nat → (List Nat × Nat) × List Nat
  | [], p => (([], p), [])
  | t :: rest, p =>
    if p < m then
      let r := processGo m rest (p + 1)
      (r.1, t :: r.2)
    else ((t :: rest, p), [])

/-- RequestQueue._process (fix.js 284-297): dispatches from the front of the
waiting list while `processing < maxConcurrent`. -/
def RequestQueue.process (q : RequestQueue) : RequestQueue × List Nat :=
  let r := processGo q.maxConcurrent q.queue q.processing
  (⟨r.1.1, r.1.2, q.maxConcurrent⟩, r.2)

/-- RequestQueue.enqueue (fix.js 277-282): pushes the task at the back and
runs `_process`. -/
def RequestQueue.enqueueTask (q : RequestQueue) (t : Nat) : RequestQueue × List Nat :=
  RequestQueue.process { q with queue := q.queue ++ [t] }

/-- The `.finally` handler of a dispatched task (fix.js 292-295):
`processing--` then `_process()`. -/
def RequestQueue.finishTask (q : RequestQueue) : RequestQueue × List Nat :=
  RequestQueue.process { q with processing := q.processing - 1 }

/-- RequestQueue state together with a wall clock. The source attaches no
timer, timestamp or deadline to queued tasks (each queue record is only
`{ fn, resolve, reject }`), so the passage of wall-clock time changes
nothing in the queue state. -/
structure TimedQueue where
  q : RequestQueue
  now : Nat
deriving DecidableEq, Repr

/-- Wall-clock time advancing by `dt` milliseconds: no code of RequestQueue
runs on a timer, so only `now` moves. -/
def TimedQueue.tick (dt : Nat) (s : TimedQueue) : TimedQueue :=
  { s with now := s.now + dt }

/-- RequestQueue.enqueue, on the clocked state. -/
def TimedQueue.enqueueTask (t : Nat) (s : TimedQueue) : TimedQueue × List Nat :=
  let r := s.q.enqueueTask t
  (⟨r.1, s.now⟩, r.2)

/-- A dispatched task settling, on the clocked state. -/
def TimedQueue.finishTask (s : TimedQueue) : TimedQueue × List Nat :=
  let r := s.q.finishTask
  (⟨r.1, s.now⟩, r.2)

/-! ## ImapConnectionPool (fix.js 57-207)

Connections are identified by a `Nat`. Connection creation
(`_createConnection`, which opens a real socket) is abstracted as a
`create : Nat → Option Nat` argument: `create i` is the connection object
obtained for slot `i`, `none` a creation failure (which `initialize` logs
and skips). `requestCount` is a `Map`; `_markedForRefresh`, a flag the
source sets on the connection object, is kept as the `marked` list. -/

/-- Map.get on a Nat-keyed association list. -/
def natLookup (k : Nat) : List (Nat × Nat) → Option Nat
  | [] => none
  | (k1, v) :: rest => if k1 = k then some v else natLookup k rest

/-- Map.set on a Nat-keyed association list. -/
def natSet (k v : Nat) : List (Nat × Nat) → List (Nat × Nat)
  | [] => [(k, v)]
  | (k1, v1) :: rest => if k1 = k then (k, v) :: rest else (k1, v1) :: natSet k v rest

structure ImapConnectionPool where
  pool : List Nat
  available : List Nat
  inUse : List Nat
  requestCount : List (Nat × Nat)
  marked : List Nat
  initialized : Bool
deriving DecidableEq, Repr

/-- The constructor of ImapConnectionPool (fix.js 58-66). -/
def ImapConnectionPool.new : ImapConnectionPool :=
  ⟨[], [], [], [], [], false⟩

/-- ImapConnectionPool.initialize (fix.js 68-87): when not yet initialized,
tries to create `poolSize` connections; each success is pushed into `pool`
and `available` with request count 0; failures are logged and skipped; the
`initialized` flag is then set. -/
def initPool (create : Nat → Option Nat) (p : ImapConnectionPool) : ImapConnectionPool :=
  if p.initialized then p
  else
    let created := (List.range CONFIG.poolSize).filterMap create
    { pool := p.pool ++ created
      available := p.available ++ created
      inUse := p.inUse
      requestCount := created.foldl (fun m c => natSet c 0 m) p.requestCount
      marked := p.marked
      initialized := true }

/-- ImapConnectionPool.acquire (fix.js 119-148): initializes the pool when
the `initialized` flag is unset; then, when no connection is available (the
source polls every 100 ms until `queueTimeout` elapses, and availability
changes only through other calls), throws the pool-timeout error; otherwise
shifts the first available connection, adds it to `inUse`, increments its
request count, and marks it for refresh once the count reaches
`maxRequestsPerConn` (the asynchronous replacement of `_scheduleRefresh` is
kept abstract; only its `_markedForRefresh = true` marking, which `release`
consults, is modelled). -/
def ImapConnectionPool.acquire (create : Nat → Option Nat) (p : ImapConnectionPool) :
    Except Unit Nat × ImapConnectionPool :=
  let p1 := if p.initialized then p else initPool create p
  match p1.available with
  | [] => (Except.error (), p1)
  | conn :: rest =>
    let count := (natLookup conn p1.requestCount).getD 0 + 1
    (Except.ok conn,
      { p1 with
        available := rest
        inUse := conn :: p1.inUse
        requestCount := natSet conn count p1.requestCount
        marked := if count ≥ CONFIG.maxRequestsPerConn then conn :: p1.marked else p1.marked })

/-- ImapConnectionPool.release (fix.js 150-157): removes the connection from
`inUse`; pushes it back onto `available` unless it is marked for refresh
(in which case it is left to the replacement path). -/
def ImapConnectionPool.release (conn : Nat) (p : ImapConnectionPool) : ImapConnectionPool :=
  { p with
    inUse := p.inUse.erase conn
    available := if conn ∈ p.marked then p.available else p.available ++ [conn] }

/-- ImapConnectionPool.shutdown (fix.js 188-206): calls `end()` on every
pooled connection inside a try/catch that ignores close errors (the second
component records, in order, the connections that received `end()`), then
empties `pool`, `available`, `inUse` and `requestCount` and unsets the
`initialized` flag. -/
def ImapConnectionPool.shutdown (p : ImapConnectionPool) : ImapConnectionPool × List Nat :=
  ({ pool := [], available := [], inUse := [], requestCount := [],
     marked := p.marked, initialized := false }, p.pool)

/-! ## The artifact record built by `_processEmails` (fix.js 491-499). -/

structure Artifact where
  code : Option String
  resetLink : Option String
  fromText : String
  subject : String
  date : Nat
  source : String
  folder : String
deriving DecidableEq, Repr

/-! ## _fetchOTPWithRetry (fix.js 362-382)

The call to `this._fetchOTPInternal(...)` is abstracted as a state-passing
operation `internal : Nat → σ → Except Unit (Option α) × σ` (the attempt
index and the state, to success-with-possibly-null-result or thrown error);
`Math.random() * 1000` is the explicit `jitter` function. The recursion of
the source increases `attempt` and stops rethrowing once
`attempt ≥ CONFIG.maxRetries`; here it runs on the structurally decreasing
fuel `CONFIG.maxRetries + 1 - attempt`, which that guard keeps positive, so
the fuel-exhausted base case (which rethrows like the guard) is never the
deciding one for runs entered at `attempt ≤ CONFIG.maxRetries`. The second
component of the result collects, in order, the inter-attempt delays slept
by `setTimeout`. -/

def fetchRetryGo {σ α : Type} (internal : Nat → σ → Except Unit (Option α) × σ)
    (jitter : Nat → Nat) : Nat → Nat → σ → (Except Unit (Option α) × σ) × List Nat
  | 0, attempt, s => (internal attempt s, [])
  | fuel + 1, attempt, s =>
    match internal attempt s with
    | (Except.ok r, s1) => ((Except.ok r, s1), [])
    | (Except.error e, s1) =>
      if attempt ≥ CONFIG.maxRetries then ((Except.error e, s1), [])
      else
        let delay := min (CONFIG.initialRetryDelay * 2 ^ attempt + jitter attempt)
          CONFIG.maxRetryDelay
        let r2 := fetchRetryGo internal jitter fuel (attempt + 1) s1
        (r2.1, delay :: r2.2)

/-- _fetchOTPWithRetry (fix.js 362-382), entered at a given attempt index
(fetchOTP enters at 0). -/
def fetchOTPWithRetry {σ α : Type} (internal : Nat → σ → Except Unit (Option α) × σ)
    (jitter : Nat → Nat) (attempt : Nat) (s : σ) : (Except Unit (Option α) × σ) × List Nat :=
  fetchRetryGo internal jitter (CONFIG.maxRetries + 1 - attempt) attempt s

/-! ## _fetchOTPInternal (fix.js 384-413)

The two `_searchFolder` calls are abstracted as
`searchFolder : String → Except Unit (Option Artifact)` (folder name to
resolved candidate; `Except.error` models a rejection inside the `try`
block, whose first rejection `Promise.all` propagates, INBOX first). The
try/finally makes `pool.release(conn)` run on every exit path after the
acquire; the third component logs, in order, the connections released. -/

def fetchOTPInternal (targetEmail : String) (create : Nat → Option Nat)
    (searchFolder : String → Except Unit (Option Artifact)) (p : ImapConnectionPool) :
    Except Unit (Option Artifact) × ImapConnectionPool × List Nat :=
  if targetEmail = "" then (Except.error (), p, [])
  else
    match ImapConnectionPool.acquire create p with
    | (Except.error e, p1) => (Except.error e, p1, [])
    | (Except.ok conn, p1) =>
      match searchFolder "INBOX", searchFolder "[Gmail]/Spam" with
      | Except.ok inboxResult, Except.ok spamResult =>
        let result :=
          match inboxResult with
          | some r => some r
          | none => spamResult
        (Except.ok result, ImapConnectionPool.release conn p1, [conn])
      | Except.error e, _ => (Except.error e, ImapConnectionPool.release conn p1, [conn])
      | Except.ok _, Except.error e => (Except.error e, ImapConnectionPool.release conn p1, [conn])

/-! ## HighPerformanceImapHandler.fetchOTP (fix.js 334-360) -/

/-- The result object fetchOTP returns and caches: the artifact together
with the `cached` marker (absent, hence false, on a fresh result; true on a
cache hit) and `timeTaken` in seconds. -/
structure OtpResult where
  artifact : Artifact
  cached : Bool
  timeTaken : Nat
deriving DecidableEq, Repr

/-- Observable side effects of one fetchOTP call: tasks submitted to the
request queue, successful pool acquisitions, and `_searchFolder` calls
against the message store. -/
structure FetchEffects where
  queueSubmits : Nat
  poolAcquires : Nat
  searchCalls : Nat
deriving DecidableEq, Repr

/-- HighPerformanceImapHandler.fetchOTP (fix.js 334-360): checks the cache
first and, on a hit, returns the stored result spread with
`cached := true, timeTaken := 0`, touching neither the queue, the pool nor
the message store. On a miss it submits one task to the request queue which
runs `_fetchOTPWithRetry` from attempt 0 over `_fetchOTPInternal`; a
non-null result gets `timeTaken := elapsedSec` (the source's
`Math.round((Date.now() - startTime) / 1000)`, the elapsed wall time being
outside the model) and is stored in the cache; a null result is returned
uncached; a rethrown error propagates. `searchFolder attempt folder` is the
candidate the partition search resolves for that folder on that attempt. -/
def fetchOTP (service targetEmail : String) (now elapsedSec : Nat)
    (create : Nat → Option Nat)
    (searchFolder : Nat → String → Except Unit (Option Artifact))
    (jitter : Nat → Nat)
    (cache : OtpCache OtpResult) (p : ImapConnectionPool) :
    Except Unit (Option OtpResult) × OtpCache OtpResult × ImapConnectionPool × FetchEffects :=
  match OtpCache.get cache now targetEmail service with
  | (some c, cache1) =>
    (Except.ok (some { c with cached := true, timeTaken := 0 }), cache1, p, ⟨0, 0, 0⟩)
  | (none, cache1) =>
    let internal := fun (attempt : Nat) (st : ImapConnectionPool × FetchEffects) =>
      let r := fetchOTPInternal targetEmail create (searchFolder attempt) st.1
      (r.1,
        (r.2.1,
          { st.2 with
            poolAcquires := st.2.poolAcquires + r.2.2.length
            searchCalls := st.2.searchCalls + 2 * r.2.2.length }))
    let run := fetchOTPWithRetry internal jitter 0 (p, ⟨1, 0, 0⟩)
    match run.1.1, run.1.2 with
    | Except.error e, (p1, eff) => (Except.error e, cache1, p1, eff)
    | Except.ok none, (p1, eff) => (Except.ok none, cache1, p1, eff)
    | Except.ok (some a), (p1, eff) =>
      let r : OtpResult := { artifact := a, cached := false, timeTaken := elapsedSec }
      (Except.ok (some r), OtpCache.set cache1 now targetEmail service r, p1, eff)

/-! ## _extractOTP (fix.js 551-584)

The function normalizes `subject + "\n" + text + "\n" + html` (non-breaking
spaces to spaces, whitespace runs collapsed to one space, trimmed) and then
tries six regular expressions in order, returning the first one's capture
group, always a `(\d{6})`. Each pattern is embedded as a character-list
matcher that mirrors the regex at one start position; unanchored patterns
are tried at every start position left to right, as the regex engine does.
Greedy subpattern classes (`\s*`, `[^\d]*`, `[:\s]*`) never overlap what
must follow them (a dash, a digit, a literal starting with a letter), so
maximal munch is the only possible reading and no backtracking arises. -/

/-- JavaScript `\s` on the characters that can occur after the non-breaking
space has been replaced. -/
def isSpaceChar (c : Char) : Bool :=
  c = ' ' || c = '\t' || c = '\n' || c = '\r' || c = '\x0b' || c = '\x0c'

/-- JavaScript `\w`: ASCII letters, digits and underscore. -/
def isWordChar (c : Char) : Bool := c.isAlphanum || c = '_'

/-- The `.replace(/\s+/g, ' ')` pass: `prevSpace` records whether the
previous kept character came from a whitespace run. -/
def collapseSpacesGo : Bool → List Char → List Char
  | _, [] => []
  | prevSpace, c :: cs =>
    if isSpaceChar c then
      if prevSpace then collapseSpacesGo true cs
      else ' ' :: collapseSpacesGo true cs
    else c :: collapseSpacesGo false cs

def collapseSpaces (l : List Char) : List Char := collapseSpacesGo false l

/-- The `.trim()` pass. -/
def trimChars (l : List Char) : List Char :=
  ((l.dropWhile isSpaceChar).reverse.dropWhile isSpaceChar).reverse

/-- The `combined` string of _extractOTP (fix.js 552-555), as characters:
subject, text and html joined by newlines, ` ` replaced by a space,
whitespace collapsed, trimmed. -/
def normalizeCombined (text html subject : String) : List Char :=
  trimChars (collapseSpaces
    (((subject ++ "\n" ++ text ++ "\n" ++ html).toList).map
      (fun c => if c = '\u00A0' then ' ' else c)))

/-- Case-insensitive match of a literal at the front; returns the rest. -/
def matchLit : List Char → List Char → Option (List Char)
  | [], s => some s
  | _ :: _, [] => none
  | l :: ls, c :: cs => if l.toLower = c.toLower then matchLit ls cs else none

/-- Reads exactly `n` digit characters from the front: `(\d{n})` and the
rest. -/
def readDigits : Nat → List Char → Option (List Char × List Char)
  | 0, s => some ([], s)
  | _ + 1, [] => none
  | n + 1, c :: cs =>
    if c.isDigit then (readDigits n cs).map (fun r => (c :: r.1, r.2))
    else none

/-- The `[:\s]*(\d{6})` tail shared by several patterns: greedily skips
colons and whitespace, then captures six digits. -/
def colonSpacesDigits (r : List Char) : Option (List Char) :=
  (readDigits 6 (r.dropWhile (fun c => c = ':' || isSpaceChar c))).map (fun x => x.1)

/-- Pattern 1, `/^(\d{6})\s*[–-]\s*your Spotify login code/i`, anchored at
the start of the string. -/
def matchSpotifyLogin (s : List Char) : Option (List Char) :=
  match readDigits 6 s with
  | none => none
  | some (ds, r1) =>
    match r1.dropWhile isSpaceChar with
    | [] => none
    | c :: r2 =>
      if c = '–' || c = '-' then
        match matchLit "your spotify login code".toList (r2.dropWhile isSpaceChar) with
        | some _ => some ds
        | none => none
      else none

/-- Pattern 2, `/enter this code[^\d]*(\d{6})/i`, at one start position. -/
def matchEnterThisCode (s : List Char) : Option (List Char) :=
  match matchLit "enter this code".toList s with
  | none => none
  | some r => (readDigits 6 (r.dropWhile (fun c => !c.isDigit))).map (fun x => x.1)

/-- Pattern 3, `/(?:verification code is|your code is|login code is)[:\s]*(\d{6})/i`,
at one start position; the alternatives begin with distinct letters, so the
engine's left-to-right trial at a fixed position is a plain first-match. -/
def matchCodeIs (s : List Char) : Option (List Char) :=
  match matchLit "verification code is".toList s with
  | some r => colonSpacesDigits r
  | none =>
    match matchLit "your code is".toList s with
    | some r => colonSpacesDigits r
    | none =>
      match matchLit "login code is".toList s with
      | some r => colonSpacesDigits r
      | none => none

/-- The `[:\s]*is[:\s]*(\d{6})` tail of pattern 4. -/
def isThenDigits (r : List Char) : Option (List Char) :=
  match matchLit "is".toList (r.dropWhile (fun c => c = ':' || isSpaceChar c)) with
  | some r2 => colonSpacesDigits r2
  | none => none

/-- Pattern 4, `/(?:verification code|confirmation code)[:\s]*is[:\s]*(\d{6})/i`,
at one start position. -/
def matchCodeColonIs (s : List Char) : Option (List Char) :=
  match matchLit "verification code".toList s with
  | some r => isThenDigits r
  | none =>
    match matchLit "confirmation code".toList s with
    | some r => isThenDigits r
    | none => none

/-- Holds when a word boundary `\b` stands before the current position,
`prev` being the previous character (none at the string start). -/
def boundaryBefore (prev : Option Char) : Bool :=
  match prev with
  | none => true
  | some pc => !isWordChar pc

/-- Holds when a word boundary `\b` stands after a digit, `rest` being what
follows the capture. -/
def boundaryAfter (rest : List Char) : Bool :=
  match rest with
  | [] => true
  | c :: _ => !isWordChar c

/-- Pattern 5, `/\bcode[:\s]*(\d{6})\b/i`, at one start position with the
previous character supplied for the boundaries. -/
def matchWordCode (prev : Option Char) (s : List Char) : Option (List Char) :=
  if boundaryBefore prev then
    match matchLit "code".toList s with
    | some r =>
      match readDigits 6 (r.dropWhile (fun c => c = ':' || isSpaceChar c)) with
      | some (ds, rest) => if boundaryAfter rest then some ds else none
      | none => none
    | none => none
  else none

/-- Pattern 6, `/\b(\d{6})\b/`, at one start position with the previous
character supplied for the boundaries. -/
def matchBareSix (prev : Option Char) (s : List Char) : Option (List Char) :=
  if boundaryBefore prev then
    match readDigits 6 s with
    | some (ds, rest) => if boundaryAfter rest then some ds else none
    | none => none
  else none

/-- Tries an unanchored single-position matcher at every start position,
left to right. -/
def scanFor (f : List Char → Option (List Char)) : List Char → Option (List Char)
  | [] => f []
  | c :: cs =>
    match f (c :: cs) with
    | some r => some r
    | none => scanFor f cs

/-- Tries a boundary-aware single-position matcher at every start position,
left to right, threading the previous character. -/
def scanPrev (f : Option Char → List Char → Option (List Char)) :
    Option Char → List Char → Option (List Char)
  | prev, [] => f prev []
  | prev, c :: cs =>
    match f prev (c :: cs) with
    | some r => some r
    | none => scanPrev f (some c) cs

/-- _extractOTP (fix.js 551-584): normalizes the three inputs into one
string and returns the first capture of the six patterns tried in order,
null when none matches. -/
def extractOTP (text html subject : String) : Option String :=
  let combined := normalizeCombined text html subject
  let try1 := matchSpotifyLogin combined
  let try2 := scanFor matchEnterThisCode combined
  let try3 := scanFor matchCodeIs combined
  let try4 := scanFor matchCodeColonIs combined
  let try5 := scanPrev matchWordCode none combined
  let try6 := scanPrev matchBareSix none combined
  match try1 with
  | some ds => some (String.mk ds)
  | none =>
    match try2 with
    | some ds => some (String.mk ds)
    | none =>
      match try3 with
      | some ds => some (String.mk ds)
      | none =>
        match try4 with
        | some ds => some (String.mk ds)
        | none =>
          match try5 with
          | some ds => some (String.mk ds)
          | none =>
            match try6 with
            | some ds => some (String.mk ds)
            | none => none

/-! ## Concrete states used by counterexamples and witnesses -/

/-- A candidate artifact found in INBOX, message timestamp 100. -/
def inboxArtifact : Artifact :=
  ⟨some "111111", none, "no-reply@spotify.com", "Spotify login code", 100, "gmail", "INBOX"⟩

/-- A candidate artifact found in Spam, message timestamp 200 (more recent). -/
def spamArtifact : Artifact :=
  ⟨some "222222", none, "no-reply@spotify.com", "Spotify login code", 200, "gmail",
    "[Gmail]/Spam"⟩

/-- A search collaborator under which both partitions hold a match. -/
def bothFoldersSearch : String → Except Unit (Option Artifact) :=
  fun f => Except.ok (if f = "INBOX" then some inboxArtifact else some spamArtifact)

/-- An initialized pool holding one idle connection. -/
def readyPool : ImapConnectionPool := ⟨[0], [0], [], [(0, 0)], [], true⟩

/-- A queue run: eleven tasks enqueued into a fresh queue (the first ten
dispatch immediately, task 10 is left waiting), after which 40 seconds of
wall-clock time pass — beyond `CONFIG.queueTimeout`. -/
def elevenTasksThenWait : TimedQueue :=
  TimedQueue.tick 40000
    ((List.range 11).foldl (fun s t => (TimedQueue.enqueueTask t s).1) ⟨RequestQueue.new, 0⟩)

/-! ## Helper lemmas -/

/-- Deleting a key that `lookupKey` finds shortens the list by one. -/
theorem deleteKey_length_of_lookup {α : Type} (k : String) :
    ∀ (l : List (String × CacheEntry α)) (e : CacheEntry α),
      lookupKey k l = some e → (deleteKey k l).length + 1 = l.length := by
  intro l
  induction l with
  | nil => intro e h; simp [lookupKey] at h
  | cons hd tl ih =>
    intro e h
    obtain ⟨k1, e1⟩ := hd
    by_cases hk : k1 = k
    · simp [deleteKey, hk]
    · simp only [lookupKey, if_neg hk] at h
      simp only [deleteKey, if_neg hk, List.length_cons]
      rw [ih e h]

/-- The `_process` loop never pushes `processing` past the ceiling it tests. -/
theorem processGo_le (m : Nat) :
    ∀ (l : List Nat) (p : Nat), p ≤ m → (processGo m l p).1.2 ≤ m := by
  intro l
  induction l with
  | nil => intro p hp; simpa [processGo] using hp
  | cons t rest ih =>
    intro p hp
    by_cases h : p < m
    · simpa [processGo, h] using ih (p + 1) h
    · simpa [processGo, h] using hp

/-- The `_process` loop dispatches an initial segment of the waiting list in
order: the dispatched ids followed by the remaining waiters re-form it. -/
theorem processGo_fifo (m : Nat) :
    ∀ (l : List Nat) (p : Nat), (processGo m l p).2 ++ (processGo m l p).1.1 = l := by
  intro l
  induction l with
  | nil => intro p; simp [processGo]
  | cons t rest ih =>
    intro p
    by_cases h : p < m
    · simpa [processGo, h] using ih (p + 1)
    · simp [processGo, h]

/-! ## C5 -/

/-- C5: for a key whose entry's TTL has elapsed (strictly more than
`cacheTTL` milliseconds since it was stored), `get` returns null, the stale
entry is deleted, and `size` drops by one — an expired entry is never
returned. -/
theorem c5_expired_get_deletes {α : Type} (c : OtpCache α) (now : Nat)
    (email service : String) (entry : CacheEntry α)
    (hen : c.enabled = true)
    (hlk : lookupKey (cacheKey email service) c.cache = some entry)
    (hexp : now - entry.timestamp > CONFIG.cacheTTL) :
    (c.get now email service).1 = none ∧
    (c.get now email service).2.cache = deleteKey (cacheKey email service) c.cache ∧
    (c.get now email service).2.size + 1 = c.size := by
  have hg : c.get now email service =
      (none, { c with cache := deleteKey (cacheKey email service) c.cache }) := by
    unfold OtpCache.get
    rw [hen]
    simp only [Bool.true_eq_false, if_false, hlk, if_pos hexp]
  rw [hg]
  exact ⟨rfl, rfl, deleteKey_length_of_lookup _ _ _ hlk⟩

/-- Witness for C5 at a concrete cache: one entry stored at time 0, read at
time 300001. -/
theorem c5_expired_get_deletes_witness :
    (OtpCache.get (⟨[("a:b", ⟨7, 0⟩)], true⟩ : OtpCache Nat) 300001 "a" "b").1 = none ∧
    (OtpCache.get (⟨[("a:b", ⟨7, 0⟩)], true⟩ : OtpCache Nat) 300001 "a" "b").2.cache =
      deleteKey (cacheKey "a" "b") [("a:b", ⟨7, 0⟩)] ∧
    (OtpCache.get (⟨[("a:b", ⟨7, 0⟩)], true⟩ : OtpCache Nat) 300001 "a" "b").2.size + 1 =
      OtpCache.size (⟨[("a:b", ⟨7, 0⟩)], true⟩ : OtpCache Nat) :=
  c5_expired_get_deletes ⟨[("a:b", ⟨7, 0⟩)], true⟩ 300001 "a" "b" ⟨7, 0⟩ rfl (by decide)
    (by decide)

/-! ## C4 -/

/-- C4: the queue never runs more than `maxConcurrent` tasks at once —
`_process`, `enqueue` and task completion all preserve
`processing ≤ maxConcurrent` — and dispatch among waiting tasks is FIFO:
what `_process` dispatches is an initial segment of the waiting list in
enqueue order. -/
theorem c4_concurrency_and_fifo (q : RequestQueue) (t : Nat)
    (h : q.processing ≤ q.maxConcurrent) :
    ((q.process).1.processing ≤ q.maxConcurrent ∧
     (q.enqueueTask t).1.processing ≤ q.maxConcurrent ∧
     (q.finishTask).1.processing ≤ q.maxConcurrent) ∧
    ((q.process).2 ++ (q.process).1.queue = q.queue ∧
     (q.enqueueTask t).2 ++ (q.enqueueTask t).1.queue = q.queue ++ [t] ∧
     (q.finishTask).2 ++ (q.finishTask).1.queue = q.queue) := by
  refine ⟨⟨?_, ?_, ?_⟩, ?_, ?_, ?_⟩
  · exact processGo_le _ _ _ h
  · exact processGo_le _ _ _ h
  · exact processGo_le _ _ _ (Nat.le_trans (Nat.sub_le _ _) h)
  · exact processGo_fifo _ _ _
  · exact processGo_fifo _ _ _
  · exact processGo_fifo _ _ _

/-- Witness for C4 at a concrete queue state. -/
theorem c4_concurrency_and_fifo_witness :
    (((⟨[4, 5], 9, 10⟩ : RequestQueue).process).1.processing ≤ 10 ∧
     ((⟨[4, 5], 9, 10⟩ : RequestQueue).enqueueTask 6).1.processing ≤ 10 ∧
     ((⟨[4, 5], 9, 10⟩ : RequestQueue).finishTask).1.processing ≤ 10) ∧
    (((⟨[4, 5], 9, 10⟩ : RequestQueue).process).2 ++
        ((⟨[4, 5], 9, 10⟩ : RequestQueue).process).1.queue = [4, 5] ∧
     ((⟨[4, 5], 9, 10⟩ : RequestQueue).enqueueTask 6).2 ++
        ((⟨[4, 5], 9, 10⟩ : RequestQueue).enqueueTask 6).1.queue = [4, 5] ++ [6] ∧
     ((⟨[4, 5], 9, 10⟩ : RequestQueue).finishTask).2 ++
        ((⟨[4, 5], 9, 10⟩ : RequestQueue).finishTask).1.queue = [4, 5]) :=
  c4_concurrency_and_fifo ⟨[4, 5], 9, 10⟩ 6 (by decide)

/-! ## C3 -/

/-- C3 fails on the code: after eleven enqueues into a fresh queue, task 10
waits while ten run; 40 seconds later — past `queueTimeout` — it is still in
the waiting list (never rejected, never removed), and as soon as one running
task settles it is dispatched, that is, executed. The claimed
enqueue-time deadline does not exist. -/
theorem c3_counterexample :
    elevenTasksThenWait.q.queue = [10] ∧
    elevenTasksThenWait.now > CONFIG.queueTimeout ∧
    (TimedQueue.finishTask elevenTasksThenWait).2 = [10] := by decide

/-- C3 (amended): queued tasks carry no deadline. Wall-clock time passing
leaves the queue state untouched, and a waiting task — however long it has
waited — is dispatched (executed) once the running count drops below
`maxConcurrent`; the `queueTimeout` constant instead bounds the
connection-wait inside `pool.acquire`, which governs tasks only after
dispatch. -/
theorem c3_no_queue_deadline (s : TimedQueue) (dt : Nat) (t : Nat) (rest : List Nat)
    (hq : s.q.queue = t :: rest) (hp : s.q.processing - 1 < s.q.maxConcurrent) :
    (TimedQueue.tick dt s).q = s.q ∧
    ((TimedQueue.tick dt s).finishTask).2.head? = some t := by
  refine ⟨rfl, ?_⟩
  show ((s.q.finishTask).2).head? = some t
  unfold RequestQueue.finishTask RequestQueue.process
  simp only [hq]
  simp [processGo, hp]

/-- Witness for the amended C3 at a concrete state: one waiting task, one
running slot freeing up after 40 seconds. -/
theorem c3_no_queue_deadline_witness :
    (TimedQueue.tick 40000 (⟨⟨[7], 1, 1⟩, 0⟩ : TimedQueue)).q = (⟨⟨[7], 1, 1⟩, 0⟩ : TimedQueue).q ∧
    ((TimedQueue.tick 40000 (⟨⟨[7], 1, 1⟩, 0⟩ : TimedQueue)).finishTask).2.head? = some 7 :=
  c3_no_queue_deadline _ 40000 7 [] rfl (by decide)

/-! ## C1 -/

/-- C1 fails on the code: with a match in both partitions, `_fetchOTPInternal`
returns `inboxResult || spamResult` — the INBOX candidate — although the Spam
candidate's message timestamp (200) is more recent than INBOX's (100). The
claimed most-recent-timestamp tie-break does not exist. -/
theorem c1_counterexample :
    (fetchOTPInternal "user@example.com" (fun _ => none) bothFoldersSearch readyPool).1 =
      Except.ok (some inboxArtifact) ∧
    inboxArtifact.date < spamArtifact.date ∧
    inboxArtifact ≠ spamArtifact :=
  ⟨rfl, by decide, by decide⟩

/-- C1 (amended): when several partitions return a candidate, the coordinator
resolves `inboxResult || spamResult`, a fixed partition order — INBOX's
candidate when there is one, Spam's otherwise — regardless of the message
timestamps. -/
theorem c1_partition_order (targetEmail : String) (create : Nat → Option Nat)
    (p p1 : ImapConnectionPool) (conn : Nat) (inbox spam : Option Artifact)
    (hne : targetEmail ≠ "")
    (hacq : ImapConnectionPool.acquire create p = (Except.ok conn, p1)) :
    (fetchOTPInternal targetEmail create
        (fun f => Except.ok (if f = "INBOX" then inbox else spam)) p).1 =
      Except.ok (match inbox with | some r => some r | none => spam) := by
  unfold fetchOTPInternal
  rw [if_neg hne, hacq]
  rfl

/-- Witness for the amended C1: the INBOX partition is empty, so the Spam
candidate is returned. -/
theorem c1_partition_order_witness :
    (fetchOTPInternal "user@example.com" (fun _ => none)
        (fun f => Except.ok (if f = "INBOX" then none else some spamArtifact)) readyPool).1 =
      Except.ok (some spamArtifact) :=
  c1_partition_order "user@example.com" (fun _ => none) readyPool
    ⟨[0], [], [0], [(0, 1)], [], true⟩ 0 none (some spamArtifact) (by decide) rfl

/-! ## C2 -/

/-- C2 fails on the code: when an attempt resolves with a null result and no
error, `_fetchOTPWithRetry` returns that null immediately — one single
attempt (the state counts invocations), no delay slept — although
`maxRetries` is 3 and the claim requires the null to be retried until the
attempt budget is exhausted. -/
theorem c2_counterexample :
    fetchOTPWithRetry (fun (_ : Nat) (n : Nat) => (Except.ok (none : Option Artifact), n + 1))
        (fun _ => 0) 0 0 = ((Except.ok none, 1), []) ∧
    (1 : Nat) < CONFIG.maxRetries :=
  ⟨rfl, by decide⟩

/-- C2 (amended): a completed attempt — a null result included — is returned
immediately, with no delay slept and no further attempt; only a thrown error
enters the wait-and-retry path. -/
theorem c2_null_returned_immediately {σ α : Type}
    (internal : Nat → σ → Except Unit (Option α) × σ) (jitter : Nat → Nat)
    (attempt : Nat) (s : σ) (r : Option α) (s1 : σ)
    (h : internal attempt s = (Except.ok r, s1)) :
    fetchOTPWithRetry internal jitter attempt s = ((Except.ok r, s1), []) := by
  unfold fetchOTPWithRetry
  cases hf : CONFIG.maxRetries + 1 - attempt with
  | zero => simp [fetchRetryGo, h]
  | succ n => simp [fetchRetryGo, h]

/-- Witness for the amended C2 at a concrete null-resolving attempt. -/
theorem c2_null_returned_immediately_witness :
    fetchOTPWithRetry (fun (_ : Nat) (u : Unit) => (Except.ok (none : Option Artifact), u))
        (fun _ => 500) 0 () = ((Except.ok none, ()), []) :=
  c2_null_returned_immediately _ _ 0 () none () rfl

/-! ## C9 -/

/-- C9 fails on the code in its attempt count: with every attempt throwing,
the loop entered at attempt 0 sleeps the delays 1000, 2000, 4000 and performs
4 attempts (the state counts invocations) — one more than
`maxRetries = 3`, the claimed bound `maxAttempts`. -/
theorem c9_counterexample :
    fetchOTPWithRetry (fun (_ : Nat) (n : Nat) => ((Except.error () : Except Unit (Option Artifact)), n + 1))
        (fun _ => 0) 0 0 = ((Except.error (), 4), [1000, 2000, 4000]) ∧
    (4 : Nat) > CONFIG.maxRetries :=
  ⟨rfl, by decide⟩

/-- C9 (amended): for every run of the retry loop entered at attempt 0 with
jitter below 1000 (the source's `Math.random() * 1000`), the slept delays are
non-decreasing and each is at most `maxRetryDelay`; at most `maxRetries`
delays are slept, so at most `maxRetries + 1` attempts are performed. -/
theorem c9_delays_monotone_bounded {σ α : Type}
    (internal : Nat → σ → Except Unit (Option α) × σ) (jitter : Nat → Nat)
    (hj : ∀ i, jitter i < 1000) (s : σ) :
    List.Chain' (· ≤ ·) (fetchOTPWithRetry internal jitter 0 s).2 ∧
    (∀ d ∈ (fetchOTPWithRetry internal jitter 0 s).2, d ≤ CONFIG.maxRetryDelay) ∧
    (fetchOTPWithRetry internal jitter 0 s).2.length ≤ CONFIG.maxRetries := by
  have hj0 := hj 0
  have hj1 := hj 1
  have hj2 := hj 2
  have e : fetchOTPWithRetry internal jitter 0 s = fetchRetryGo internal jitter 4 0 s := rfl
  rw [e]
  rcases h0 : internal 0 s with ⟨r0, s1⟩
  cases r0 with
  | ok v => simp [fetchRetryGo, h0]
  | error e0 =>
    rcases h1 : internal 1 s1 with ⟨r1, s2⟩
    cases r1 with
    | ok v =>
      simp only [fetchRetryGo, h0, h1, CONFIG.maxRetries, CONFIG.initialRetryDelay,
        CONFIG.maxRetryDelay]
      norm_num [List.chain'_cons]
    | error e1 =>
      rcases h2 : internal 2 s2 with ⟨r2, s3⟩
      cases r2 with
      | ok v =>
        simp only [fetchRetryGo, h0, h1, h2, CONFIG.maxRetries, CONFIG.initialRetryDelay,
          CONFIG.maxRetryDelay]
        norm_num [List.chain'_cons]
        all_goals omega
      | error e2 =>
        rcases h3 : internal 3 s3 with ⟨r3, s4⟩
        cases r3 with
        | ok v =>
          simp only [fetchRetryGo, h0, h1, h2, h3, CONFIG.maxRetries, CONFIG.initialRetryDelay,
            CONFIG.maxRetryDelay]
          norm_num [List.chain'_cons]
          all_goals omega
        | error e3 =>
          simp only [fetchRetryGo, h0, h1, h2, h3, CONFIG.maxRetries, CONFIG.initialRetryDelay,
            CONFIG.maxRetryDelay]
          norm_num [List.chain'_cons]
          all_goals omega

/-- Witness for the amended C9: every attempt throws, zero jitter. -/
theorem c9_delays_monotone_bounded_witness :
    List.Chain' (· ≤ ·)
      (fetchOTPWithRetry (fun (_ : Nat) (u : Unit) => ((Except.error () : Except Unit (Option Artifact)), u))
        (fun _ => 0) 0 ()).2 ∧
    (∀ d ∈ (fetchOTPWithRetry (fun (_ : Nat) (u : Unit) => ((Except.error () : Except Unit (Option Artifact)), u))
        (fun _ => 0) 0 ()).2, d ≤ CONFIG.maxRetryDelay) ∧
    (fetchOTPWithRetry (fun (_ : Nat) (u : Unit) => ((Except.error () : Except Unit (Option Artifact)), u))
        (fun _ => 0) 0 ()).2.length ≤ CONFIG.maxRetries :=
  c9_delays_monotone_bounded _ _ (fun _ => by decide) ()

/-! ## C7 -/

/-- C7 fails on the code: after `shutdown()` the `initialized` flag is unset,
so the next `acquire()` does not fail fast — it re-runs `initialize`, creates
fresh sessions, and hands one out. -/
theorem c7_counterexample :
    (ImapConnectionPool.shutdown readyPool).1.initialized = false ∧
    (ImapConnectionPool.acquire (fun i => some (100 + i))
        (ImapConnectionPool.shutdown readyPool).1).1 = Except.ok 100 :=
  ⟨rfl, rfl⟩

/-- C7 (amended): `shutdown()` does close every pooled session (ignoring
close errors) and clear all bookkeeping, but a subsequent `acquire()` does
not fail fast: it re-initializes the pool through `initialize` and, whenever
session creation succeeds, creates sessions and hands one out. -/
theorem c7_shutdown_then_acquire (p : ImapConnectionPool) (create : Nat → Option Nat)
    (hc : (create 0).isSome = true) :
    ((ImapConnectionPool.shutdown p).2 = p.pool ∧
     (ImapConnectionPool.shutdown p).1.pool = [] ∧
     (ImapConnectionPool.shutdown p).1.available = [] ∧
     (ImapConnectionPool.shutdown p).1.inUse = [] ∧
     (ImapConnectionPool.shutdown p).1.requestCount = [] ∧
     (ImapConnectionPool.shutdown p).1.initialized = false) ∧
    (ImapConnectionPool.acquire create (ImapConnectionPool.shutdown p).1).1.isOk = true := by
  refine ⟨⟨rfl, rfl, rfl, rfl, rfl, rfl⟩, ?_⟩
  obtain ⟨c0, hc0⟩ := Option.isSome_iff_exists.mp hc
  have hrange : List.range CONFIG.poolSize = 0 :: [1, 2, 3, 4] := rfl
  unfold ImapConnectionPool.acquire
  simp only [ImapConnectionPool.shutdown, initPool, Bool.false_eq_true, if_false, hrange,
    List.filterMap_cons, hc0, List.nil_append]
  rfl

/-- Witness for the amended C7 at a concrete pool and session creator. -/
theorem c7_shutdown_then_acquire_witness :
    ((ImapConnectionPool.shutdown readyPool).2 = readyPool.pool ∧
     (ImapConnectionPool.shutdown readyPool).1.pool = [] ∧
     (ImapConnectionPool.shutdown readyPool).1.available = [] ∧
     (ImapConnectionPool.shutdown readyPool).1.inUse = [] ∧
     (ImapConnectionPool.shutdown readyPool).1.requestCount = [] ∧
     (ImapConnectionPool.shutdown readyPool).1.initialized = false) ∧
    (ImapConnectionPool.acquire (fun i => some (100 + i))
        (ImapConnectionPool.shutdown readyPool).1).1.isOk = true :=
  c7_shutdown_then_acquire readyPool (fun i => some (100 + i)) rfl

/-! ## C8 -/

/-- C8: whenever an attempt acquires a session, `_fetchOTPInternal` releases
exactly that session exactly once — on the successful path, the
empty-result path, and either partition search rejecting alike (the
try/finally) — and the pool after the attempt is exactly the acquired
pool after `release`, which re-files the session as available or leaves it
to the replacement path when it is marked. -/
theorem c8_release_exactly_once (targetEmail : String) (create : Nat → Option Nat)
    (searchFolder : String → Except Unit (Option Artifact)) (p p1 : ImapConnectionPool)
    (conn : Nat)
    (hne : targetEmail ≠ "")
    (hacq : ImapConnectionPool.acquire create p = (Except.ok conn, p1)) :
    (fetchOTPInternal targetEmail create searchFolder p).2.2 = [conn] ∧
    (fetchOTPInternal targetEmail create searchFolder p).2.1 =
      ImapConnectionPool.release conn p1 := by
  unfold fetchOTPInternal
  rw [if_neg hne, hacq]
  rcases hi : searchFolder "INBOX" with e | ri
  · exact ⟨rfl, rfl⟩
  · rcases hs : searchFolder "[Gmail]/Spam" with e | rs
    · exact ⟨rfl, rfl⟩
    · exact ⟨rfl, rfl⟩

/-- Witness for C8 at a concrete pool with an empty-result search. -/
theorem c8_release_exactly_once_witness :
    (fetchOTPInternal "u" (fun _ => none) (fun _ => Except.ok none) readyPool).2.2 = [0] ∧
    (fetchOTPInternal "u" (fun _ => none) (fun _ => Except.ok none) readyPool).2.1 =
      ImapConnectionPool.release 0 ⟨[0], [], [0], [(0, 1)], [], true⟩ :=
  c8_release_exactly_once "u" (fun _ => none) (fun _ => Except.ok none) readyPool
    ⟨[0], [], [0], [(0, 1)], [], true⟩ 0 (by decide) rfl

/-! ## C6 -/

/-- C6: on a cache hit, fetchOTP returns the cached artifact spread with the
from-cache marker `cached = true` and `timeTaken = 0`, with the cache as the
lookup left it and the pool untouched, and with zero queue submissions, zero
pool acquisitions and zero message-store searches. -/
theorem c6_cache_hit_short_circuit (service targetEmail : String) (now elapsedSec : Nat)
    (create : Nat → Option Nat)
    (searchFolder : Nat → String → Except Unit (Option Artifact)) (jitter : Nat → Nat)
    (cache : OtpCache OtpResult) (p : ImapConnectionPool)
    (c : OtpResult) (cache1 : OtpCache OtpResult)
    (hhit : OtpCache.get cache now targetEmail service = (some c, cache1)) :
    fetchOTP service targetEmail now elapsedSec create searchFolder jitter cache p =
      (Except.ok (some { c with cached := true, timeTaken := 0 }), cache1, p, ⟨0, 0, 0⟩) := by
  unfold fetchOTP
  rw [hhit]

/-- Witness for C6: a fresh entry stored at time 50 and read at time 60. -/
theorem c6_cache_hit_short_circuit_witness :
    fetchOTP "spotify" "e" 60 9 (fun _ => none) (fun _ _ => Except.ok none) (fun _ => 0)
        (⟨[("e:spotify", ⟨⟨inboxArtifact, false, 7⟩, 50⟩)], true⟩ : OtpCache OtpResult)
        readyPool =
      (Except.ok (some ⟨inboxArtifact, true, 0⟩),
        (⟨[("e:spotify", ⟨⟨inboxArtifact, false, 7⟩, 50⟩)], true⟩ : OtpCache OtpResult),
        readyPool, ⟨0, 0, 0⟩) :=
  c6_cache_hit_short_circuit "spotify" "e" 60 9 (fun _ => none) (fun _ _ => Except.ok none)
    (fun _ => 0) _ readyPool ⟨inboxArtifact, false, 7⟩ _ rfl

/-! ## C10 -/

/-- What `readDigits n` captures is exactly `n` digit characters. -/
theorem readDigits_shape : ∀ (n : Nat) (s ds rest : List Char),
    readDigits n s = some (ds, rest) → ds.length = n ∧ ds.all Char.isDigit = true := by
  intro n
  induction n with
  | zero =>
    intro s ds rest h
    simp only [readDigits, Option.some.injEq, Prod.mk.injEq] at h
    simp [← h.1]
  | succ n ih =>
    intro s ds rest h
    cases s with
    | nil => simp [readDigits] at h
    | cons c cs =>
      simp only [readDigits] at h
      cases hd : c.isDigit with
      | false => simp [hd] at h
      | true =>
        simp only [hd, if_true] at h
        cases hrec : readDigits n cs with
        | none => rw [hrec] at h; simp at h
        | some pr =>
          obtain ⟨ds1, r1⟩ := pr
          rw [hrec] at h
          simp only [Option.map_some', Option.some.injEq, Prod.mk.injEq] at h
          obtain ⟨hds, hrest⟩ := h
          obtain ⟨hl, ha⟩ := ih cs ds1 r1 hrec
          subst hds
          constructor
          · simp [hl]
          · simp [List.all_cons, hd, ha]

/-- The `[:\s]*(\d{6})` tail captures six digits. -/
theorem colonSpacesDigits_shape (r ds : List Char) (h : colonSpacesDigits r = some ds) :
    ds.length = 6 ∧ ds.all Char.isDigit = true := by
  unfold colonSpacesDigits at h
  cases h6 : readDigits 6 (r.dropWhile fun c => c = ':' || isSpaceChar c) with
  | none => rw [h6] at h; simp at h
  | some pr =>
    obtain ⟨ds1, r1⟩ := pr
    rw [h6] at h
    simp only [Option.map_some', Option.some.injEq] at h
    subst h
    exact readDigits_shape 6 _ _ _ h6

/-- Pattern 1 captures six digits. -/
theorem matchSpotifyLogin_shape (s ds : List Char) (h : matchSpotifyLogin s = some ds) :
    ds.length = 6 ∧ ds.all Char.isDigit = true := by
  unfold matchSpotifyLogin at h
  cases h6 : readDigits 6 s with
  | none => rw [h6] at h; simp at h
  | some pr =>
    obtain ⟨ds1, r1⟩ := pr
    rw [h6] at h
    dsimp only at h
    have hshape := readDigits_shape 6 _ _ _ h6
    cases hdw : r1.dropWhile isSpaceChar with
    | nil => rw [hdw] at h; simp at h
    | cons c r2 =>
      rw [hdw] at h
      cases hc : (c = '–' || c = '-' : Bool) with
      | false => simp [hc] at h
      | true =>
        simp only [hc, if_true] at h
        cases hlit : matchLit "your spotify login code".toList (r2.dropWhile isSpaceChar) with
        | none => rw [hlit] at h; simp at h
        | some r3 =>
          rw [hlit] at h
          simp only [Option.some.injEq] at h
          subst h
          exact hshape

/-- Pattern 2 captures six digits. -/
theorem matchEnterThisCode_shape (s ds : List Char) (h : matchEnterThisCode s = some ds) :
    ds.length = 6 ∧ ds.all Char.isDigit = true := by
  unfold matchEnterThisCode at h
  cases hlit : matchLit "enter this code".toList s with
  | none => rw [hlit] at h; simp at h
  | some r =>
    rw [hlit] at h
    dsimp only at h
    cases h6 : readDigits 6 (r.dropWhile fun c => !c.isDigit) with
    | none => rw [h6] at h; simp at h
    | some pr =>
      obtain ⟨ds1, r1⟩ := pr
      rw [h6] at h
      simp only [Option.map_some', Option.some.injEq] at h
      subst h
      exact readDigits_shape 6 _ _ _ h6

/-- Pattern 3 captures six digits. -/
theorem matchCodeIs_shape (s ds : List Char) (h : matchCodeIs s = some ds) :
    ds.length = 6 ∧ ds.all Char.isDigit = true := by
  unfold matchCodeIs at h
  cases h1 : matchLit "verification code is".toList s with
  | some r => rw [h1] at h; exact colonSpacesDigits_shape _ _ h
  | none =>
    rw [h1] at h
    cases h2 : matchLit "your code is".toList s with
    | some r => rw [h2] at h; exact colonSpacesDigits_shape _ _ h
    | none =>
      rw [h2] at h
      cases h3 : matchLit "login code is".toList s with
      | some r => rw [h3] at h; exact colonSpacesDigits_shape _ _ h
      | none => rw [h3] at h; simp at h

/-- The `is`-tail of pattern 4 captures six digits. -/
theorem isThenDigits_shape (r ds : List Char) (h : isThenDigits r = some ds) :
    ds.length = 6 ∧ ds.all Char.isDigit = true := by
  unfold isThenDigits at h
  cases h1 : matchLit "is".toList (r.dropWhile fun c => c = ':' || isSpaceChar c) with
  | some r2 => rw [h1] at h; exact colonSpacesDigits_shape _ _ h
  | none => rw [h1] at h; simp at h

/-- Pattern 4 captures six digits. -/
theorem matchCodeColonIs_shape (s ds : List Char) (h : matchCodeColonIs s = some ds) :
    ds.length = 6 ∧ ds.all Char.isDigit = true := by
  unfold matchCodeColonIs at h
  cases h1 : matchLit "verification code".toList s with
  | some r => rw [h1] at h; exact isThenDigits_shape _ _ h
  | none =>
    rw [h1] at h
    cases h2 : matchLit "confirmation code".toList s with
    | some r => rw [h2] at h; exact isThenDigits_shape _ _ h
    | none => rw [h2] at h; simp at h

/-- Pattern 5 captures six digits. -/
theorem matchWordCode_shape (prev : Option Char) (s ds : List Char)
    (h : matchWordCode prev s = some ds) :
    ds.length = 6 ∧ ds.all Char.isDigit = true := by
  unfold matchWordCode at h
  cases hb : boundaryBefore prev with
  | false => simp [hb] at h
  | true =>
    simp only [hb, if_true] at h
    cases hlit : matchLit "code".toList s with
    | none => rw [hlit] at h; simp at h
    | some r =>
      rw [hlit] at h
      dsimp only at h
      cases h6 : readDigits 6 (r.dropWhile fun c => c = ':' || isSpaceChar c) with
      | none => rw [h6] at h; simp at h
      | some pr =>
        obtain ⟨ds1, rest⟩ := pr
        rw [h6] at h
        cases ha : boundaryAfter rest with
        | false => simp [ha] at h
        | true =>
          simp only [ha, if_true, Option.some.injEq] at h
          subst h
          exact readDigits_shape 6 _ _ _ h6

/-- Pattern 6 captures six digits. -/
theorem matchBareSix_shape (prev : Option Char) (s ds : List Char)
    (h : matchBareSix prev s = some ds) :
    ds.length = 6 ∧ ds.all Char.isDigit = true := by
  unfold matchBareSix at h
  cases hb : boundaryBefore prev with
  | false => simp [hb] at h
  | true =>
    simp only [hb, if_true] at h
    cases h6 : readDigits 6 s with
    | none => rw [h6] at h; simp at h
    | some pr =>
      obtain ⟨ds1, rest⟩ := pr
      rw [h6] at h
      cases ha : boundaryAfter rest with
      | false => simp [ha] at h
      | true =>
        simp only [ha, if_true, Option.some.injEq] at h
        subst h
        exact readDigits_shape 6 _ _ _ h6

/-- A scan returns only what its single-position matcher returns. -/
theorem scanFor_shape (f : List Char → Option (List Char))
    (hf : ∀ s ds, f s = some ds → ds.length = 6 ∧ ds.all Char.isDigit = true) :
    ∀ (l ds : List Char), scanFor f l = some ds →
      ds.length = 6 ∧ ds.all Char.isDigit = true := by
  intro l
  induction l with
  | nil => intro ds h; exact hf [] ds (by simpa [scanFor] using h)
  | cons c cs ih =>
    intro ds h
    unfold scanFor at h
    cases hc : f (c :: cs) with
    | some r =>
      rw [hc] at h
      simp only [Option.some.injEq] at h
      subst h
      exact hf _ _ hc
    | none => rw [hc] at h; exact ih ds h

/-- A boundary-aware scan returns only what its matcher returns. -/
theorem scanPrev_shape (f : Option Char → List Char → Option (List Char))
    (hf : ∀ prev s ds, f prev s = some ds → ds.length = 6 ∧ ds.all Char.isDigit = true) :
    ∀ (l : List Char) (prev : Option Char) (ds : List Char), scanPrev f prev l = some ds →
      ds.length = 6 ∧ ds.all Char.isDigit = true := by
  intro l
  induction l with
  | nil => intro prev ds h; exact hf prev [] ds (by simpa [scanPrev] using h)
  | cons c cs ih =>
    intro prev ds h
    unfold scanPrev at h
    cases hc : f prev (c :: cs) with
    | some r =>
      rw [hc] at h
      simp only [Option.some.injEq] at h
      subst h
      exact hf _ _ _ hc
    | none => rw [hc] at h; exact ih (some c) ds h

/-- C10: whatever the text, html and subject inputs, `_extractOTP` returns
either null or a string of exactly six ASCII digits — every pattern's
capture group is a `(\d{6})`. -/
theorem c10_extract_six_digits (text html subject code : String)
    (h : extractOTP text html subject = some code) :
    code.length = 6 ∧ code.toList.all Char.isDigit = true := by
  simp only [extractOTP] at h
  cases h1 : matchSpotifyLogin (normalizeCombined text html subject) with
  | some ds =>
    rw [h1] at h
    simp only [Option.some.injEq] at h
    subst h
    exact matchSpotifyLogin_shape _ _ h1
  | none =>
    rw [h1] at h
    cases h2 : scanFor matchEnterThisCode (normalizeCombined text html subject) with
    | some ds =>
      rw [h2] at h
      simp only [Option.some.injEq] at h
      subst h
      exact scanFor_shape _ matchEnterThisCode_shape _ _ h2
    | none =>
      rw [h2] at h
      cases h3 : scanFor matchCodeIs (normalizeCombined text html subject) with
      | some ds =>
        rw [h3] at h
        simp only [Option.some.injEq] at h
        subst h
        exact scanFor_shape _ matchCodeIs_shape _ _ h3
      | none =>
        rw [h3] at h
        cases h4 : scanFor matchCodeColonIs (normalizeCombined text html subject) with
        | some ds =>
          rw [h4] at h
          simp only [Option.some.injEq] at h
          subst h
          exact scanFor_shape _ matchCodeColonIs_shape _ _ h4
        | none =>
          rw [h4] at h
          cases h5 : scanPrev matchWordCode none (normalizeCombined text html subject) with
          | some ds =>
            rw [h5] at h
            simp only [Option.some.injEq] at h
            subst h
            exact scanPrev_shape _ matchWordCode_shape _ _ _ h5
          | none =>
            rw [h5] at h
            cases h6 : scanPrev matchBareSix none (normalizeCombined text html subject) with
            | some ds =>
              rw [h6] at h
              simp only [Option.some.injEq] at h
              subst h
              exact scanPrev_shape _ matchBareSix_shape _ _ _ h6
            | none => rw [h6] at h; simp at h

/-- Witness for C10 at a concrete message body. -/
theorem c10_extract_six_digits_witness :
    extractOTP "code: 482913" "" "" = some "482913" ∧
    (("482913" : String).length = 6 ∧ ("482913" : String).toList.all Char.isDigit = true) :=
  ⟨rfl, c10_extract_six_digits "code: 482913" "" "" "482913" rfl⟩

end Fix
